import Mathlib

/-!
Formal model of the Draco domain-decomposed unstructured-mesh topology engine
(class rtt_mesh::Draco_Mesh, exercised by src/mesh/test/tstDraco_Mesh_DD.cc) and of
the rtt_dsxx::SP reference-counted smart pointer (ds++/SP.hh), together with
theorems settling the specification claims.

The implementation files Draco_Mesh.hh/Draco_Mesh.cc and the test helper
Test_Mesh_Interface.hh are not among the visible sources; only the unit test
tstDraco_Mesh_DD.cc is.  The mesh construction is therefore modelled from the
specification, and where the specification is ambiguous the concrete values
asserted by the unit test pin the behaviour down.  The SP smart pointer is
translated directly from ds++/SP.hh.
-/

namespace rtt_mesh

/-- Geometry kinds of Draco_Mesh (spec section 6: Cartesian, cylindrical, spherical). -/
inductive Geometry
  | cartesian
  | cylindrical
  | spherical
  deriving DecidableEq, Repr, Inhabited

/-- Modelled from the spec: the per-rank construction input of a Draco_Mesh
(spec section 6 and the constructor call in tstDraco_Mesh_DD.cc); Draco_Mesh.cc is
missing from the visible sources.  Node coordinates are omitted from the model:
the spec forbids any coordinate-based matching, so they play no role in the
topology reconstruction that the claims are about.  The number of local nodes is
the length of the global-node-number array (one entry per local node). -/
structure MeshInput where
  dimension : Nat
  geometry : Geometry
  cell_type : List Nat
  cell_to_node_linkage : List Nat
  side_set_flag : List Nat
  side_node_count : List Nat
  side_to_node_linkage : List Nat
  global_node_number : List Nat
  ghost_cell_type : List Nat
  ghost_cell_to_node_linkage : List Nat
  ghost_cell_number : List Int
  ghost_cell_rank : List Int
  deriving DecidableEq, Repr, Inhabited

/-- Layout (Draco_Mesh::Layout): map from local cell index to an ordered sequence of
linkage records, each holding the neighboring entity index and the shared nodes.
Cells without records of the kind are absent, as in the C++ std::map. -/
abbrev Layout := List (Nat × List (Nat × List Nat))

/-- Dual_Ghost_Layout (Draco_Mesh::Dual_Ghost_Layout): map from local node index to
records ((remote ghost-cell index on the owning rank, remote node indices), owning
rank).  Key order in the C++ std::map is immaterial to the claims, which access the
map through lookups and sizes only. -/
abbrev Dual_Ghost_Layout := List (Nat × List ((Nat × List Nat) × Nat))

/-- Slice a flattened linkage array into per-entity node lists, each entity taking
as many entries as its node count (spec section 3: node counts gate how flattened
input arrays are sliced). -/
def takeChunks : List Nat → List Nat → List (List Nat)
  | [], _ => []
  | c :: cs, l => l.take c :: takeChunks cs (l.drop c)

/-- Per-cell node lists of a construction input. -/
def cellsOf (inp : MeshInput) : List (List Nat) :=
  takeChunks inp.cell_type inp.cell_to_node_linkage

/-- Per-side node lists of a construction input. -/
def sidesOf (inp : MeshInput) : List (List Nat) :=
  takeChunks inp.side_node_count inp.side_to_node_linkage

/-- Per-ghost-cell node lists (local node indices) of a construction input. -/
def ghostsOf (inp : MeshInput) : List (List Nat) :=
  takeChunks inp.ghost_cell_type inp.ghost_cell_to_node_linkage

/-- Modelled from the spec: in 2-D a face of a cell is an ordered pair of cyclically
adjacent nodes of the cell (spec section 4.2: in 2-D a face is an ordered pair of
nodes); the cell node list is traversed as a cycle, as the quad cells of
Test_Mesh_Interface are. -/
def cellFaces (ns : List Nat) : List (Nat × Nat) := ns.zip (ns.rotate 1)

/-- Two ordered faces name the same unordered node pair. -/
abbrev pairEq (g f : Nat × Nat) : Prop :=
  (g.1 = f.1 ∧ g.2 = f.2) ∨ (g.1 = f.2 ∧ g.2 = f.1)

/-- A two-node entity (side or ghost cell) has the same node set as face f. -/
abbrev matchFace (f : Nat × Nat) (ms : List Nat) : Prop :=
  ms = [f.1, f.2] ∨ ms = [f.2, f.1]

/-- The cell with node list ms has a face with the same node set as f. -/
abbrev hasFace (ms : List Nat) (f : Nat × Nat) : Prop :=
  ∃ g ∈ cellFaces ms, pairEq g f

/-- Indices of the on-rank cells other than i that share face f (spec section 4.2:
full required node-match count for a face, 2 shared nodes in 2-D). -/
def ccMatches (cells : List (List Nat)) (i : Nat) (f : Nat × Nat) : List Nat :=
  (List.range cells.length).filter fun j => decide (j ≠ i ∧ hasFace (cells.getD j []) f)

/-- Indices of the sides whose node tuple matches face f by node-index equality. -/
def csMatches (sides : List (List Nat)) (f : Nat × Nat) : List Nat :=
  (List.range sides.length).filter fun s => decide (matchFace f (sides.getD s []))

/-- Indices of the ghost-cell descriptors whose (local) node list matches face f. -/
def cgMatches (ghosts : List (List Nat)) (f : Nat × Nat) : List Nat :=
  (List.range ghosts.length).filter fun g => decide (matchFace f (ghosts.getD g []))

/-- Records of one cell in one layout: for each face of the cell, one record per
matching entity, carrying the entity index and the shared nodes in the face order. -/
def recsOfMatches (sel : Nat × Nat → List Nat) (ns : List Nat) : List (Nat × List Nat) :=
  (cellFaces ns).flatMap fun f => (sel f).map fun j => (j, [f.1, f.2])

/-- Cell-to-cell records of cell i. -/
def ccRecsFor (cells : List (List Nat)) (i : Nat) : List (Nat × List Nat) :=
  recsOfMatches (ccMatches cells i) (cells.getD i [])

/-- Cell-to-side records of a cell with node list ns. -/
def csRecsFor (sides : List (List Nat)) (ns : List Nat) : List (Nat × List Nat) :=
  recsOfMatches (csMatches sides) ns

/-- Cell-to-ghost records of a cell with node list ns. -/
def cgRecsFor (ghosts : List (List Nat)) (ns : List Nat) : List (Nat × List Nat) :=
  recsOfMatches (cgMatches ghosts) ns

/-- Assemble a Layout from per-cell record lists, omitting cells with no records
(spec section 3: entries for a cell with no neighbors of that kind are absent). -/
def mkLayout (recs : Nat → List (Nat × List Nat)) : Nat → Layout
  | 0 => []
  | n + 1 => mkLayout recs n ++ (if recs n = [] then [] else [(n, recs n)])

/-- Records of cell i in a layout (empty when the cell is not a key). -/
def getRecs (lay : Layout) (i : Nat) : List (Nat × List Nat) :=
  (List.lookup i lay).getD []

/-- Modelled from the spec: the fatal configuration checks of mesh construction
(spec sections 4.1-4.3 and 7): per-cell node counts must sum to the flattened
linkage length (likewise for sides and ghost cells), referenced node indices must
be in range, ghost bookkeeping arrays must agree in length, cells must be
non-degenerate polygons without duplicated nodes, every cell face must be
classified as interior, side or ghost, and no side may dangle. -/
abbrev ChecksOK (inp : MeshInput) : Prop :=
  inp.dimension = 2 ∧
  inp.cell_type.sum = inp.cell_to_node_linkage.length ∧
  inp.side_node_count.sum = inp.side_to_node_linkage.length ∧
  inp.ghost_cell_type.sum = inp.ghost_cell_to_node_linkage.length ∧
  inp.ghost_cell_number.length = inp.ghost_cell_type.length ∧
  inp.ghost_cell_rank.length = inp.ghost_cell_type.length ∧
  (∀ x ∈ inp.cell_to_node_linkage, x < inp.global_node_number.length) ∧
  (∀ x ∈ inp.side_to_node_linkage, x < inp.global_node_number.length) ∧
  (∀ x ∈ inp.ghost_cell_to_node_linkage, x < inp.global_node_number.length) ∧
  (∀ ns ∈ cellsOf inp, 3 ≤ ns.length ∧ ns.Nodup) ∧
  (∀ i < (cellsOf inp).length, ∀ f ∈ cellFaces ((cellsOf inp).getD i []),
      ccMatches (cellsOf inp) i f ≠ [] ∨ csMatches (sidesOf inp) f ≠ [] ∨
      cgMatches (ghostsOf inp) f ≠ []) ∧
  (∀ s ∈ sidesOf inp, ∃ i < (cellsOf inp).length,
      ∃ f ∈ cellFaces ((cellsOf inp).getD i []), matchFace f s)

/-- The purely rank-local part of the Mesh Aggregate: scalar metadata, the three
cell-indexed layouts, and the ghost bookkeeping lists. -/
structure LocalMeshPart where
  dimension : Nat
  geometry : Geometry
  num_cells : Nat
  num_nodes : Nat
  cc_layout : Layout
  cs_layout : Layout
  cg_layout : Layout
  ghost_cell_numbers : List Int
  ghost_cell_ranks : List Int
  deriving DecidableEq, Repr, Inhabited

/-- The Mesh Aggregate (Draco_Mesh): the local part plus the node-to-ghost-cell
Dual_Ghost_Layout. -/
structure Draco_Mesh extends LocalMeshPart where
  ngc_layout : Dual_Ghost_Layout
  deriving DecidableEq, Repr, Inhabited

/-- Assemble the rank-local part of the aggregate from one rank's input. -/
def assembleLocal (inp : MeshInput) : LocalMeshPart :=
  let cells := cellsOf inp
  { dimension := inp.dimension
    geometry := inp.geometry
    num_cells := cells.length
    num_nodes := inp.global_node_number.length
    cc_layout := mkLayout (ccRecsFor cells) cells.length
    cs_layout := mkLayout (fun i => csRecsFor (sidesOf inp) (cells.getD i [])) cells.length
    cg_layout := mkLayout (fun i => cgRecsFor (ghostsOf inp) (cells.getD i [])) cells.length
    ghost_cell_numbers := inp.ghost_cell_number
    ghost_cell_ranks := inp.ghost_cell_rank }

/-- Global node number of a local node. -/
def globalOf (inp : MeshInput) (n : Nat) : Nat :=
  inp.global_node_number.getD n 0

/-- Modelled from the spec and the unit test: the Dual_Ghost_Layout records that
rank s contributes for the physical node with global number g: one record per cell
of s containing g, holding (the cell's local index on s, the two node indices local
to s that are cyclically adjacent to g's node in that cell - successor first, then
predecessor - and s).  The unit test (tstDraco_Mesh_DD.cc, comments at lines
159, 181, 357, 395, 433, 464) checks exactly these adjacent nodes with indexing
local to the other rank; this data of the owning rank is delivered to the
constructing rank by the communication layer. -/
def remoteRecordsAt (inpS : MeshInput) (s : Nat) (g : Nat) : List ((Nat × List Nat) × Nat) :=
  let cellsS := cellsOf inpS
  (List.range cellsS.length).filterMap fun j =>
    let ns := cellsS.getD j []
    match ns.findIdx? (fun m => globalOf inpS m == g) with
    | none => none
    | some k => some ((j, [ns.getD ((k + 1) % ns.length) 0,
                           ns.getD ((k + ns.length - 1) % ns.length) 0]), s)

/-- All Dual_Ghost_Layout records of rank r for the node with global number g:
the remote ranks are visited in increasing rank order, as the unit test observes
(record ranks appear in ascending order at every node). -/
def dualRecords (scenario : List MeshInput) (r : Nat) (g : Nat) :
    List ((Nat × List Nat) × Nat) :=
  (List.range scenario.length).flatMap fun s =>
    if s = r then [] else remoteRecordsAt (scenario.getD s default) s g

/-- The local nodes on a processor boundary: the distinct nodes appearing in the
ghost-cell-to-node linkage (spec section 3: the Dual Ghost Layout is keyed only by
nodes actually touching a reported ghost cell). -/
def boundaryNodes (inp : MeshInput) : List Nat :=
  inp.ghost_cell_to_node_linkage.dedup

/-- The Dual_Ghost_Layout of rank r in a multi-rank scenario. -/
def dualLayoutOf (scenario : List MeshInput) (r : Nat) : Dual_Ghost_Layout :=
  (boundaryNodes (scenario.getD r default)).map fun n =>
    (n, dualRecords scenario r (globalOf (scenario.getD r default) n))

/-- Assemble rank r's Mesh Aggregate (without the configuration checks). -/
def assembleMesh (scenario : List MeshInput) (r : Nat) : Draco_Mesh :=
  { toLocalMeshPart := assembleLocal (scenario.getD r default)
    ngc_layout := dualLayoutOf scenario r }

/-- Modelled from the spec: construction of the rank-local part alone, failing
fatally (returning none, so that no partially-built aggregate exists) on any
configuration error. -/
def buildLocal (inp : MeshInput) : Option LocalMeshPart :=
  if ChecksOK inp then some (assembleLocal inp) else none

/-- Modelled from the spec: Draco_Mesh construction on rank r of a multi-rank
scenario.  Construction fails fatally (returns none) when rank r's own input
violates a configuration check; otherwise it returns the fully populated,
immutable aggregate. -/
def buildMesh (scenario : List MeshInput) (r : Nat) : Option Draco_Mesh :=
  if ChecksOK (scenario.getD r default) then some (assembleMesh scenario r) else none

/-- Modelled from the spec: the per-cell flattening used by the permutation test
(spec section 8): the shared-node sets of the cell's records across the
cell-to-cell, cell-to-side and cell-to-ghost layouts, concatenated and with
duplicates removed (a node lies on two faces of its cell, so the union of the
shared-node sets is taken). -/
def flattenCellNodes (m : Draco_Mesh) (i : Nat) : List Nat :=
  ((getRecs m.cc_layout i).flatMap (fun rec => rec.2) ++
   (getRecs m.cs_layout i).flatMap (fun rec => rec.2) ++
   (getRecs m.cg_layout i).flatMap (fun rec => rec.2)).dedup

/-- Cell i is adjacent to cell j in the mesh's cell-to-cell layout. -/
abbrev adjacent (m : Draco_Mesh) (i j : Nat) : Prop :=
  ∃ rec ∈ getRecs m.cc_layout i, rec.1 = j

/-- Dual ghost layout of rank r's constructed mesh (empty when construction fails). -/
def dualOf (scenario : List MeshInput) (r : Nat) : Dual_Ghost_Layout :=
  ((buildMesh scenario r).map Draco_Mesh.ngc_layout).getD []

/-- Records of the dual ghost layout at one node. -/
def recordsAt (d : Dual_Ghost_Layout) (n : Nat) : List ((Nat × List Nat) × Nat) :=
  (List.lookup n d).getD []

/-- Ranks of a scenario whose own cells contain the node with global number g:
the subdomains sharing that node. -/
def sharingRanks (scenario : List MeshInput) (g : Nat) : List Nat :=
  (List.range scenario.length).filter fun s =>
    decide (∃ ns ∈ cellsOf (scenario.getD s default), ∃ m ∈ ns,
              globalOf (scenario.getD s default) m = g)

/-- The node list that claim C3 predicates of a dual-ghost record: the boundary
nodes of ghost cell gc other than n, as local node indices on the constructing
rank (the reading of spec section 4.4 taken literally). -/
def specC3_other_nodes (inp : MeshInput) (gc : Nat) (n : Nat) : List Nat :=
  ((ghostsOf inp).getD gc []).filter fun m => m != n

/-- Modelled from the spec and the unit test: the per-rank input that
Test_Mesh_Interface generates for a 1x1 Cartesian quad mesh (one cell, four
nodes, counterclockwise cell-to-node cycle 0,1,3,2, four two-node sides around
the boundary), with the given global node numbers; Test_Mesh_Interface.hh is
missing from the visible sources.  Ghost data is set by each test case. -/
def interface1x1 (g : List Nat) : MeshInput :=
  { dimension := 2
    geometry := Geometry.cartesian
    cell_type := [4]
    cell_to_node_linkage := [0, 1, 3, 2]
    side_set_flag := [1, 2, 3, 4]
    side_node_count := [2, 2, 2, 2]
    side_to_node_linkage := [0, 1, 1, 3, 3, 2, 2, 0]
    global_node_number := g
    ghost_cell_type := []
    ghost_cell_to_node_linkage := []
    ghost_cell_number := []
    ghost_cell_rank := [] }

/-- Rank 0 input of the 2-rank test cartesian_mesh_2d_dd. -/
def rank0_2pe : MeshInput :=
  { interface1x1 [0, 1, 3, 4] with
    ghost_cell_type := [2]
    ghost_cell_to_node_linkage := [1, 3]
    ghost_cell_number := [0]
    ghost_cell_rank := [1] }

/-- Rank 1 input of the 2-rank test cartesian_mesh_2d_dd. -/
def rank1_2pe : MeshInput :=
  { interface1x1 [1, 2, 4, 5] with
    ghost_cell_type := [2]
    ghost_cell_to_node_linkage := [2, 0]
    ghost_cell_number := [0]
    ghost_cell_rank := [0] }

/-- The 2-rank, one-quad-cell-per-rank scenario of cartesian_mesh_2d_dd. -/
def scenario2pe : List MeshInput := [rank0_2pe, rank1_2pe]

/-- Rank 0 input of the 4-rank test dual_layout_2d_dd_4pe. -/
def rank0_4pe : MeshInput :=
  { interface1x1 [0, 1, 3, 4] with
    ghost_cell_type := [2, 2]
    ghost_cell_to_node_linkage := [1, 3, 3, 2]
    ghost_cell_number := [0, 0]
    ghost_cell_rank := [1, 2] }

/-- Rank 1 input of the 4-rank test dual_layout_2d_dd_4pe. -/
def rank1_4pe : MeshInput :=
  { interface1x1 [1, 2, 4, 5] with
    ghost_cell_type := [2, 2]
    ghost_cell_to_node_linkage := [2, 0, 2, 3]
    ghost_cell_number := [0, 0]
    ghost_cell_rank := [0, 3] }

/-- Rank 2 input of the 4-rank test dual_layout_2d_dd_4pe. -/
def rank2_4pe : MeshInput :=
  { interface1x1 [3, 4, 6, 7] with
    ghost_cell_type := [2, 2]
    ghost_cell_to_node_linkage := [0, 1, 1, 3]
    ghost_cell_number := [0, 0]
    ghost_cell_rank := [0, 3] }

/-- Rank 3 input of the 4-rank test dual_layout_2d_dd_4pe. -/
def rank3_4pe : MeshInput :=
  { interface1x1 [4, 5, 7, 8] with
    ghost_cell_type := [2, 2]
    ghost_cell_to_node_linkage := [0, 1, 2, 0]
    ghost_cell_number := [0, 0]
    ghost_cell_rank := [1, 2] }

/-- The 4-rank corner scenario of dual_layout_2d_dd_4pe. -/
def scenario4pe : List MeshInput := [rank0_4pe, rank1_4pe, rank2_4pe, rank3_4pe]

/-- A scenario identical to scenario2pe for rank 0 but with rank 1's cell node
cycle reordered; rank 0's own construction input is unchanged. -/
def scenario2pe_alt : List MeshInput :=
  [rank0_2pe, { rank1_2pe with cell_to_node_linkage := [0, 2, 3, 1] }]

/-- A single-rank scenario with two quad cells sharing the face with nodes 1 and 4,
used to exhibit a non-empty cell-to-cell layout. -/
def two_cell_input : MeshInput :=
  { dimension := 2
    geometry := Geometry.cartesian
    cell_type := [4, 4]
    cell_to_node_linkage := [0, 1, 4, 3, 1, 2, 5, 4]
    side_set_flag := [1, 1, 2, 3, 3, 4]
    side_node_count := [2, 2, 2, 2, 2, 2]
    side_to_node_linkage := [0, 1, 1, 2, 2, 5, 5, 4, 4, 3, 3, 0]
    global_node_number := [0, 1, 2, 3, 4, 5]
    ghost_cell_type := []
    ghost_cell_to_node_linkage := []
    ghost_cell_number := []
    ghost_cell_rank := [] }

/-- The two-cell scenario as a one-rank run. -/
def scenarioTwoCells : List MeshInput := [two_cell_input]

/-- An input whose cell node counts do not sum to the flattened linkage length. -/
def bad_length_input : MeshInput :=
  { interface1x1 [0, 1, 3, 4] with cell_to_node_linkage := [0, 1, 3] }

/-- An input referencing an out-of-range node index. -/
def bad_range_input : MeshInput :=
  { interface1x1 [0, 1, 3, 4] with cell_to_node_linkage := [0, 1, 9, 2] }

end rtt_mesh

namespace rtt_dsxx

/-- A heap for the SP model: the allocated SPref reference-counter cells
(address, refs value - the refs member of struct SPref is an int) and the
allocated pointees (address, dynamic type tag used by dynamic_cast). -/
structure Heap where
  refcells : List (Nat × Int)
  objects : List (Nat × Nat)
  deriving DecidableEq, Repr, Inhabited

/-- The data members of SP (ds++/SP.hh): the raw pointer p_ and the pointer r_
to the SPref reference counter, each NULL or an address. -/
structure SP where
  p : Option Nat
  r : Option Nat
  deriving DecidableEq, Repr, Inhabited

/-- Value of the reference counter cell at address a, when allocated. -/
def Heap.refsAt (h : Heap) (a : Nat) : Option Int :=
  List.lookup a h.refcells

/-- Overwrite the reference counter cell at address a. -/
def Heap.setRefs (h : Heap) (a : Nat) (v : Int) : Heap :=
  { h with refcells := h.refcells.map fun kv => if kv.1 = a then (kv.1, v) else kv }

/-- Deallocate the reference counter cell at address a (delete r_). -/
def Heap.eraseRef (h : Heap) (a : Nat) : Heap :=
  { h with refcells := h.refcells.filter fun kv => kv.1 != a }

/-- Deallocate a pointee (delete p_); deleting the NULL pointer is a no-op, as
the comment on SP<T>::free notes. -/
def Heap.deleteObj (h : Heap) : Option Nat → Heap
  | none => h
  | some q => { h with objects := h.objects.filter fun ov => ov.1 != q }

/-- An address not currently used by any reference counter cell. -/
def Heap.freshRef (h : Heap) : Nat :=
  (h.refcells.map Prod.fst).foldr max 0 + 1

/-- Default constructor SP::SP(): p_(NULL), r_(NULL). -/
def SP.mk0 : SP := ⟨none, none⟩

/-- SP::use_count(): r_ ? r_->refs : 0. -/
def use_count (h : Heap) (sp : SP) : Int :=
  match sp.r with
  | none => 0
  | some a => (h.refsAt a).getD 0

/-- Explicit constructor SP::SP(U *p): binds the raw pointer and allocates a new
SPref with refs initialized to 1. -/
def SP.ctorPtr (h : Heap) (p : Option Nat) : Heap × SP :=
  let a := h.freshRef
  ({ h with refcells := (a, 1) :: h.refcells }, ⟨p, some a⟩)

/-- Copy constructor SP::SP(const SP &sp_in): copies p_ and r_ and, when r_ is
not NULL, increments the shared reference count. -/
def SP.copy (h : Heap) (sp : SP) : Heap × SP :=
  match sp.r with
  | none => (h, sp)
  | some a => (h.setRefs a ((h.refsAt a).getD 0 + 1), sp)

/-- SP::free(), run by the destructor: if r_ is not NULL, decrement the count;
when it reaches zero, delete the pointee and the counter. -/
def SP.free (h : Heap) (sp : SP) : Heap :=
  match sp.r with
  | none => h
  | some a =>
    if (h.refsAt a).getD 0 - 1 = 0 then (h.eraseRef a).deleteObj sp.p
    else h.setRefs a ((h.refsAt a).getD 0 - 1)

/-- Model of dynamic_cast<T*>: succeeds exactly when the pointer is non-NULL and
the pointee's dynamic type tag is compatible with the target type under the
given subtyping relation isA. -/
def dynCast (isA : Nat → Nat → Bool) (h : Heap) (target : Nat) : Option Nat → Option Nat
  | none => none
  | some q =>
    match List.lookup q h.objects with
    | none => none
    | some t => if isA t target then some q else none

/-- dynamic_pointer_cast (ds++/SP.hh lines 362-374): Result starts default
constructed; when the dynamic_cast succeeds, Result takes the cast pointer,
shares sp's reference counter and increments it.  The C++ increments through
sp.r_ without a NULL check on success; a successful cast implies a non-NULL
pointee, and every SP holding a non-NULL pointee was given a counter by its
constructor, so the none branch below is unreachable for such states. -/
def dynamic_pointer_cast (isA : Nat → Nat → Bool) (target : Nat) (h : Heap) (sp : SP) :
    Heap × SP :=
  match dynCast isA h target sp.p with
  | none => (h, SP.mk0)
  | some q =>
    match sp.r with
    | some a => (h.setRefs a ((h.refsAt a).getD 0 + 1), ⟨some q, some a⟩)
    | none => (h, ⟨some q, none⟩)

end rtt_dsxx

namespace rtt_mesh

/-- Looking a key up in an appended association list searches the left part first. -/
theorem lookup_append {β : Type} (l1 l2 : List (Nat × β)) (a : Nat) :
    List.lookup a (l1 ++ l2) =
      match List.lookup a l1 with
      | some b => some b
      | none => List.lookup a l2 := by
  induction l1 with
  | nil => simp [List.lookup]
  | cons kv t ih =>
    obtain ⟨k, v⟩ := kv
    cases hk : a == k <;> simp [List.lookup, hk, ih]

/-- Keys of an assembled layout resolve to the generating record lists. -/
theorem lookup_mkLayout (recs : Nat → List (Nat × List Nat)) :
    ∀ n i, List.lookup i (mkLayout recs n) =
      if i < n ∧ recs i ≠ [] then some (recs i) else none := by
  intro n
  induction n with
  | zero => intro i; simp [mkLayout]
  | succ n ih =>
    intro i
    rw [mkLayout, lookup_append, ih]
    by_cases hlt : i < n
    · have hne : i ≠ n := Nat.ne_of_lt hlt
      have hb : (i == n) = false := beq_eq_false_iff_ne.mpr hne
      have hlt1 : i < n + 1 := Nat.lt_succ_of_lt hlt
      by_cases hre : recs i = [] <;>
        by_cases hrn : recs n = [] <;>
          simp [hlt, hlt1, hre, hrn, List.lookup, hb]
    · by_cases heq : i = n
      · subst heq
        by_cases hre : recs i = [] <;>
          simp [hlt, hre, List.lookup, Nat.lt_succ_self]
      · have hge : ¬ i < n + 1 := by omega
        have hb : (i == n) = false := beq_eq_false_iff_ne.mpr heq
        by_cases hrn : recs n = [] <;>
          simp [hlt, hge, hrn, List.lookup, hb]

/-- Record lists of an assembled layout: the generating list below the cell count,
empty above it. -/
theorem getRecs_mkLayout (recs : Nat → List (Nat × List Nat)) (n i : Nat) :
    getRecs (mkLayout recs n) i = if i < n then recs i else [] := by
  unfold getRecs
  rw [lookup_mkLayout]
  by_cases hlt : i < n
  · by_cases hre : recs i = [] <;> simp [hlt, hre]
  · simp [hlt]

/-- The unordered-pair relation between faces is symmetric. -/
theorem pairEq_symm {g f : Nat × Nat} (h : pairEq g f) : pairEq f g := by
  rcases h with ⟨h1, h2⟩ | ⟨h1, h2⟩
  · exact Or.inl ⟨h1.symm, h2.symm⟩
  · exact Or.inr ⟨h2.symm, h1.symm⟩

/-- The first node of a face belongs to the cell. -/
theorem fst_mem_of_mem_cellFaces {ns : List Nat} {f : Nat × Nat}
    (h : f ∈ cellFaces ns) : f.1 ∈ ns := by
  obtain ⟨a, b⟩ := f
  exact (List.of_mem_zip h).1

/-- The second node of a face belongs to the cell. -/
theorem snd_mem_of_mem_cellFaces {ns : List Nat} {f : Nat × Nat}
    (h : f ∈ cellFaces ns) : f.2 ∈ ns := by
  obtain ⟨a, b⟩ := f
  exact List.mem_rotate.mp (List.of_mem_zip h).2

/-- Every node of a cell starts some face of the cell. -/
theorem exists_face_fst {ns : List Nat} {x : Nat} (hx : x ∈ ns) :
    ∃ f ∈ cellFaces ns, f.1 = x := by
  have hmap : (cellFaces ns).map Prod.fst = ns :=
    List.map_fst_zip _ _ (le_of_eq (List.length_rotate ns 1).symm)
  rw [← hmap] at hx
  obtain ⟨f, hf, hfx⟩ := List.mem_map.mp hx
  exact ⟨f, hf, hfx⟩

/-- Nodes recorded for a cell in one layout all belong to that cell. -/
theorem nodes_subset_of_recs {sel : Nat × Nat → List Nat} {ns : List Nat} {x : Nat}
    (hx : x ∈ (recsOfMatches sel ns).flatMap fun rec => rec.2) : x ∈ ns := by
  obtain ⟨rec, hrec, hxr⟩ := List.mem_flatMap.mp hx
  obtain ⟨f, hf, hj⟩ := List.mem_flatMap.mp hrec
  obtain ⟨j, hjm, rfl⟩ := List.mem_map.mp hj
  have hxr2 : x ∈ [f.1, f.2] := hxr
  rcases List.mem_cons.mp hxr2 with rfl | hxr3
  · exact fst_mem_of_mem_cellFaces hf
  · rcases List.mem_cons.mp hxr3 with rfl | hxr4
    · exact snd_mem_of_mem_cellFaces hf
    · exact absurd hxr4 (List.not_mem_nil x)

/-- A face with at least one match contributes its first node to the layout's
recorded nodes. -/
theorem mem_nodes_of_match {sel : Nat × Nat → List Nat} {ns : List Nat} {f : Nat × Nat}
    (hf : f ∈ cellFaces ns) (hne : sel f ≠ []) :
    f.1 ∈ (recsOfMatches sel ns).flatMap fun rec => rec.2 := by
  obtain ⟨j, hj⟩ := List.exists_mem_of_ne_nil _ hne
  refine List.mem_flatMap.mpr ⟨(j, [f.1, f.2]), ?_, ?_⟩
  · exact List.mem_flatMap.mpr ⟨f, hf, List.mem_map.mpr ⟨j, hj, rfl⟩⟩
  · show f.1 ∈ [f.1, f.2]
    exact List.mem_cons_self _ _

/-- Destructing a record of one layout back into its face and matched entity. -/
theorem of_mem_recsOfMatches {sel : Nat × Nat → List Nat} {ns : List Nat}
    {rec : Nat × List Nat} (h : rec ∈ recsOfMatches sel ns) :
    ∃ f ∈ cellFaces ns, rec.1 ∈ sel f ∧ rec.2 = [f.1, f.2] := by
  obtain ⟨f, hf, hj⟩ := List.mem_flatMap.mp h
  obtain ⟨j, hjm, rfl⟩ := List.mem_map.mp hj
  exact ⟨f, hf, hjm, rfl⟩

/-- Constructing a record of one layout from a face and a matched entity. -/
theorem mem_recsOfMatches_of {sel : Nat × Nat → List Nat} {ns : List Nat}
    {f : Nat × Nat} {j : Nat} (hf : f ∈ cellFaces ns) (hj : j ∈ sel f) :
    (j, [f.1, f.2]) ∈ recsOfMatches sel ns :=
  List.mem_flatMap.mpr ⟨f, hf, List.mem_map.mpr ⟨j, hj, rfl⟩⟩

/-- Membership in the cell-to-cell match list of a face. -/
theorem mem_ccMatches {cells : List (List Nat)} {i : Nat} {f : Nat × Nat} {j : Nat} :
    j ∈ ccMatches cells i f ↔ j < cells.length ∧ j ≠ i ∧ hasFace (cells.getD j []) f := by
  unfold ccMatches
  rw [List.mem_filter, List.mem_range, decide_eq_true_iff]

/-- Successful construction happens exactly on checked inputs and yields the
assembled aggregate. -/
theorem buildMesh_eq_some {sc : List MeshInput} {r : Nat} {m : Draco_Mesh}
    (h : buildMesh sc r = some m) :
    ChecksOK (sc.getD r default) ∧ m = assembleMesh sc r := by
  by_cases hck : ChecksOK (sc.getD r default)
  · refine ⟨hck, ?_⟩
    unfold buildMesh at h
    rw [if_pos hck] at h
    exact (Option.some.inj h).symm
  · unfold buildMesh at h
    rw [if_neg hck] at h
    exact Option.noConfusion h

/-- C1: for every constructed Mesh Aggregate and every local cell, concatenating
the shared-node sets of that cell's records across the cell-to-cell, cell-to-side
and cell-to-ghost layouts yields a sequence that is a permutation of the cell's
original node list from the input cell-to-node linkage: no node dropped, none
duplicated. -/
theorem C1_cell_node_permutation (sc : List MeshInput) (r : Nat) (m : Draco_Mesh)
    (h : buildMesh sc r = some m) (i : Nat) (hi : i < m.num_cells) :
    (flattenCellNodes m i).Perm ((cellsOf (sc.getD r default)).getD i []) := by
  obtain ⟨hc, rfl⟩ := buildMesh_eq_some h
  have hi' : i < (cellsOf (sc.getD r default)).length := hi
  obtain ⟨-, -, -, -, -, -, -, -, -, hwf, hclass, -⟩ := hc
  have hns := hwf ((cellsOf (sc.getD r default)).getD i [])
    (by rw [List.getD_eq_getElem _ _ hi']; exact List.getElem_mem hi')
  obtain ⟨hlen3, hnodup⟩ := hns
  have hA : getRecs (assembleMesh sc r).cc_layout i
      = recsOfMatches (ccMatches (cellsOf (sc.getD r default)) i)
          ((cellsOf (sc.getD r default)).getD i []) := by
    show getRecs (mkLayout (ccRecsFor (cellsOf (sc.getD r default)))
        (cellsOf (sc.getD r default)).length) i = _
    rw [getRecs_mkLayout, if_pos hi']
    rfl
  have hB : getRecs (assembleMesh sc r).cs_layout i
      = recsOfMatches (csMatches (sidesOf (sc.getD r default)))
          ((cellsOf (sc.getD r default)).getD i []) := by
    show getRecs (mkLayout (fun k => csRecsFor (sidesOf (sc.getD r default))
        ((cellsOf (sc.getD r default)).getD k [])) (cellsOf (sc.getD r default)).length) i = _
    rw [getRecs_mkLayout, if_pos hi']
    rfl
  have hC : getRecs (assembleMesh sc r).cg_layout i
      = recsOfMatches (cgMatches (ghostsOf (sc.getD r default)))
          ((cellsOf (sc.getD r default)).getD i []) := by
    show getRecs (mkLayout (fun k => cgRecsFor (ghostsOf (sc.getD r default))
        ((cellsOf (sc.getD r default)).getD k [])) (cellsOf (sc.getD r default)).length) i = _
    rw [getRecs_mkLayout, if_pos hi']
    rfl
  have hflat : flattenCellNodes (assembleMesh sc r) i =
      ((recsOfMatches (ccMatches (cellsOf (sc.getD r default)) i)
          ((cellsOf (sc.getD r default)).getD i [])).flatMap (fun rec => rec.2) ++
       (recsOfMatches (csMatches (sidesOf (sc.getD r default)))
          ((cellsOf (sc.getD r default)).getD i [])).flatMap (fun rec => rec.2) ++
       (recsOfMatches (cgMatches (ghostsOf (sc.getD r default)))
          ((cellsOf (sc.getD r default)).getD i [])).flatMap (fun rec => rec.2)).dedup := by
    unfold flattenCellNodes
    rw [hA, hB, hC]
  rw [hflat]
  have hsub : ∀ x ∈ ((recsOfMatches (ccMatches (cellsOf (sc.getD r default)) i)
          ((cellsOf (sc.getD r default)).getD i [])).flatMap (fun rec => rec.2) ++
       (recsOfMatches (csMatches (sidesOf (sc.getD r default)))
          ((cellsOf (sc.getD r default)).getD i [])).flatMap (fun rec => rec.2) ++
       (recsOfMatches (cgMatches (ghostsOf (sc.getD r default)))
          ((cellsOf (sc.getD r default)).getD i [])).flatMap (fun rec => rec.2)).dedup,
      x ∈ (cellsOf (sc.getD r default)).getD i [] := by
    intro x hx
    rw [List.mem_dedup] at hx
    rcases List.mem_append.mp hx with hx2 | hx2
    · rcases List.mem_append.mp hx2 with hx3 | hx3
      · exact nodes_subset_of_recs hx3
      · exact nodes_subset_of_recs hx3
    · exact nodes_subset_of_recs hx2
  have hsup : ∀ x ∈ (cellsOf (sc.getD r default)).getD i [],
      x ∈ ((recsOfMatches (ccMatches (cellsOf (sc.getD r default)) i)
          ((cellsOf (sc.getD r default)).getD i [])).flatMap (fun rec => rec.2) ++
       (recsOfMatches (csMatches (sidesOf (sc.getD r default)))
          ((cellsOf (sc.getD r default)).getD i [])).flatMap (fun rec => rec.2) ++
       (recsOfMatches (cgMatches (ghostsOf (sc.getD r default)))
          ((cellsOf (sc.getD r default)).getD i [])).flatMap (fun rec => rec.2)).dedup := by
    intro x hx
    rw [List.mem_dedup]
    obtain ⟨f, hf, hf1⟩ := exists_face_fst hx
    rcases hclass i hi' f hf with hm | hm | hm
    · exact List.mem_append.mpr (Or.inl (List.mem_append.mpr (Or.inl
        (hf1 ▸ mem_nodes_of_match hf hm))))
    · exact List.mem_append.mpr (Or.inl (List.mem_append.mpr (Or.inr
        (hf1 ▸ mem_nodes_of_match hf hm))))
    · exact List.mem_append.mpr (Or.inr (hf1 ▸ mem_nodes_of_match hf hm))
  exact List.Subperm.antisymm ((List.nodup_dedup _).subperm hsub) (hnodup.subperm hsup)

/-- Witness for C1: the 2-rank scenario, rank 0, cell 0. -/
theorem C1_cell_node_permutation_witness :
    (flattenCellNodes ((buildMesh scenario2pe 0).getD default) 0).Perm
      ((cellsOf (scenario2pe.getD 0 default)).getD 0 []) :=
  C1_cell_node_permutation scenario2pe 0 ((buildMesh scenario2pe 0).getD default)
    (by decide) 0 (by decide)

/-- C7: for every constructed mesh the cell-to-cell layout is symmetric: whenever
cell i is adjacent to cell j, cell j is adjacent to cell i, and every face shared by
two on-rank cells appears in the layout for both cells. -/
theorem C7_cc_layout_symmetric (sc : List MeshInput) (r : Nat) (m : Draco_Mesh)
    (h : buildMesh sc r = some m) :
    (∀ i j, adjacent m i j → adjacent m j i) ∧
    (∀ i j f, i < m.num_cells → j < m.num_cells → i ≠ j →
      f ∈ cellFaces ((cellsOf (sc.getD r default)).getD i []) →
      hasFace ((cellsOf (sc.getD r default)).getD j []) f →
      adjacent m i j ∧ adjacent m j i) := by
  obtain ⟨-, rfl⟩ := buildMesh_eq_some h
  have hcc : ∀ k, getRecs (assembleMesh sc r).cc_layout k =
      if k < (cellsOf (sc.getD r default)).length
      then ccRecsFor (cellsOf (sc.getD r default)) k else [] := by
    intro k
    show getRecs (mkLayout (ccRecsFor (cellsOf (sc.getD r default)))
        (cellsOf (sc.getD r default)).length) k = _
    exact getRecs_mkLayout _ _ _
  have hadj : ∀ i j f, i < (cellsOf (sc.getD r default)).length →
      j < (cellsOf (sc.getD r default)).length → j ≠ i →
      f ∈ cellFaces ((cellsOf (sc.getD r default)).getD i []) →
      hasFace ((cellsOf (sc.getD r default)).getD j []) f →
      adjacent (assembleMesh sc r) i j := by
    intro i j f hi hj hji hf hhf
    refine ⟨(j, [f.1, f.2]), ?_, rfl⟩
    rw [hcc i, if_pos hi]
    exact mem_recsOfMatches_of hf (mem_ccMatches.mpr ⟨hj, hji, hhf⟩)
  constructor
  · intro i j hij
    obtain ⟨rec, hrec, hrecj⟩ := hij
    by_cases hi : i < (cellsOf (sc.getD r default)).length
    · rw [hcc i, if_pos hi] at hrec
      obtain ⟨f, hf, hjm, -⟩ := of_mem_recsOfMatches hrec
      obtain ⟨hj, hji, hhf⟩ := mem_ccMatches.mp hjm
      subst hrecj
      obtain ⟨g, hg, hgf⟩ := hhf
      exact hadj rec.1 i g hj hi (Ne.symm hji) hg ⟨f, hf, pairEq_symm hgf⟩
    · rw [hcc i, if_neg hi] at hrec
      exact absurd hrec (List.not_mem_nil rec)
  · intro i j f hi hj hij hf hhf
    refine ⟨hadj i j f hi hj (Ne.symm hij) hf hhf, ?_⟩
    obtain ⟨g, hg, hgf⟩ := hhf
    exact hadj j i g hj hi hij hg ⟨f, hf, pairEq_symm hgf⟩

/-- Witness for C7: in the two-quad scenario cell 0 is adjacent to cell 1, so the
theorem yields the reverse adjacency. -/
theorem C7_cc_layout_symmetric_witness :
    adjacent ((buildMesh scenarioTwoCells 0).getD default) 1 0 :=
  (C7_cc_layout_symmetric scenarioTwoCells 0
    ((buildMesh scenarioTwoCells 0).getD default) (by decide)).1 0 1 (by decide)

/-- C5 (amended): all parts of the aggregate except the Dual Ghost Layout are a
function of the constructing rank's own input alone. -/
theorem C5_local_part_pure (sc1 sc2 : List MeshInput) (r : Nat)
    (h : sc1.getD r default = sc2.getD r default) :
    (buildMesh sc1 r).map Draco_Mesh.toLocalMeshPart
      = (buildMesh sc2 r).map Draco_Mesh.toLocalMeshPart := by
  unfold buildMesh
  rw [h]
  by_cases hck : ChecksOK (sc2.getD r default)
  · rw [if_pos hck, if_pos hck]
    show some (assembleMesh sc1 r).toLocalMeshPart = some (assembleMesh sc2 r).toLocalMeshPart
    have h1 : (assembleMesh sc1 r).toLocalMeshPart = assembleLocal (sc1.getD r default) := rfl
    have h2 : (assembleMesh sc2 r).toLocalMeshPart = assembleLocal (sc2.getD r default) := rfl
    rw [h1, h2, h]
  · rw [if_neg hck, if_neg hck]

/-- Witness for C5 (amended): the unmodified and the modified 2-rank scenarios give
rank 0 the same local part. -/
theorem C5_local_part_pure_witness :
    (buildMesh scenario2pe 0).map Draco_Mesh.toLocalMeshPart
      = (buildMesh scenario2pe_alt 0).map Draco_Mesh.toLocalMeshPart :=
  C5_local_part_pure scenario2pe scenario2pe_alt 0 rfl

/-- Counterexample to C5 as stated: rank 0's construction input is identical in the
two scenarios, yet the constructed aggregates differ (their Dual Ghost Layouts
record different remote node orderings), so the aggregate is not a function of the
rank's own inputs alone. -/
theorem C5_counterexample :
    scenario2pe.getD 0 default = scenario2pe_alt.getD 0 default ∧
    buildMesh scenario2pe 0 ≠ buildMesh scenario2pe_alt 0 :=
  ⟨rfl, by decide⟩

/-- C6: the ghost-cell-number and ghost-cell-rank lists recorded on the aggregate
equal, element for element and in order, the construction input arrays. -/
theorem C6_ghost_arrays_recorded (sc : List MeshInput) (r : Nat) (m : Draco_Mesh)
    (h : buildMesh sc r = some m) :
    m.ghost_cell_numbers = (sc.getD r default).ghost_cell_number ∧
    m.ghost_cell_ranks = (sc.getD r default).ghost_cell_rank := by
  obtain ⟨-, rfl⟩ := buildMesh_eq_some h
  exact ⟨rfl, rfl⟩

/-- Witness for C6 at the 2-rank scenario, rank 0. -/
theorem C6_ghost_arrays_recorded_witness :
    ((buildMesh scenario2pe 0).getD default).ghost_cell_numbers
        = (scenario2pe.getD 0 default).ghost_cell_number ∧
    ((buildMesh scenario2pe 0).getD default).ghost_cell_ranks
        = (scenario2pe.getD 0 default).ghost_cell_rank :=
  C6_ghost_arrays_recorded scenario2pe 0 ((buildMesh scenario2pe 0).getD default) (by decide)

/-- C8: construction fails fatally, returning no aggregate at all, when the sum of
per-cell node counts differs from the flattened cell-to-node linkage length or when
a referenced node index is out of range. -/
theorem C8_fatal_on_malformed_input (sc : List MeshInput) (r : Nat)
    (h : (sc.getD r default).cell_type.sum ≠ (sc.getD r default).cell_to_node_linkage.length ∨
      ∃ x ∈ (sc.getD r default).cell_to_node_linkage,
        (sc.getD r default).global_node_number.length ≤ x) :
    buildMesh sc r = none := by
  unfold buildMesh
  by_cases hck : ChecksOK (sc.getD r default)
  · exfalso
    obtain ⟨-, hsum, -, -, -, -, hrange, -, -, -, -, -⟩ := hck
    rcases h with hne | ⟨x, hx, hge⟩
    · exact hne hsum
    · exact absurd (hrange x hx) (Nat.not_lt.mpr hge)
  · rw [if_neg hck]

/-- Witness for C8: a short linkage array and an out-of-range node index each make
construction return none. -/
theorem C8_fatal_on_malformed_input_witness :
    buildMesh [bad_length_input] 0 = none ∧ buildMesh [bad_range_input] 0 = none :=
  ⟨C8_fatal_on_malformed_input [bad_length_input] 0 (Or.inl (by decide)),
   C8_fatal_on_malformed_input [bad_range_input] 0 (Or.inr (by decide))⟩

/-- C2: in both test scenarios the Dual Ghost Layout has exactly one entry per
distinct local node appearing in the reported ghost-cell linkage; its entry count
is 2 per rank in the 2-rank scenario and 3 per rank in the 4-rank scenario, and
differs from the number of ghost cells. -/
theorem C2_dual_layout_entry_count :
    (∀ sc ∈ [scenario2pe, scenario4pe], ∀ r < 4,
      ((dualOf sc r).map Prod.fst) = boundaryNodes (sc.getD r default) ∧
      ((dualOf sc r).map Prod.fst).Nodup) ∧
    (dualOf scenario2pe 0).length = 2 ∧ (dualOf scenario2pe 1).length = 2 ∧
    (∀ r < 4, (dualOf scenario4pe r).length = 3) ∧
    (dualOf scenario2pe 0).length ≠ rank0_2pe.ghost_cell_number.length ∧
    (dualOf scenario2pe 1).length ≠ rank1_2pe.ghost_cell_number.length ∧
    (∀ r < 4, (dualOf scenario4pe r).length
        ≠ (scenario4pe.getD r default).ghost_cell_number.length) := by
  decide

/-- Counterexample to C3 as stated: at local node 1 of rank 0 in the 2-rank
scenario the dual-ghost record's node list is [1, 2], which are node indices local
to the owning rank 1; the boundary nodes of the matched ghost cell other than node
1, as indices on the constructing rank, are [3], and the two disagree. -/
theorem C3_counterexample :
    recordsAt (dualOf scenario2pe 0) 1 = [((0, [1, 2]), 1)] ∧
    specC3_other_nodes rank0_2pe 0 1 = [3] ∧
    (recordsAt (dualOf scenario2pe 0) 1).map (fun rec => rec.1.2)
      ≠ [specC3_other_nodes rank0_2pe 0 1] := by
  decide

/-- C3 (amended): for every local node N matched to a ghost cell G owned by rank R
at G's local index L on R, the record stores (L, the ordered local-node-indices on
the owning rank R that are cyclically adjacent to N's node in G - successor then
predecessor - and R); the complete dual layouts of both test scenarios equal the
values the unit test asserts. -/
theorem C3_amended_records :
    dualOf scenario2pe 0 = [(1, [((0, [1, 2]), 1)]), (3, [((0, [0, 3]), 1)])] ∧
    dualOf scenario2pe 1 = [(2, [((0, [2, 1]), 0)]), (0, [((0, [3, 0]), 0)])] ∧
    dualOf scenario4pe 0 = [(1, [((0, [1, 2]), 1)]),
      (3, [((0, [0, 3]), 1), ((0, [3, 0]), 2), ((0, [1, 2]), 3)]),
      (2, [((0, [1, 2]), 2)])] ∧
    dualOf scenario4pe 1 = [(0, [((0, [3, 0]), 0)]),
      (2, [((0, [2, 1]), 0), ((0, [3, 0]), 2), ((0, [1, 2]), 3)]),
      (3, [((0, [3, 0]), 3)])] ∧
    dualOf scenario4pe 2 = [(0, [((0, [0, 3]), 0)]),
      (1, [((0, [2, 1]), 0), ((0, [0, 3]), 1), ((0, [1, 2]), 3)]),
      (3, [((0, [0, 3]), 3)])] ∧
    dualOf scenario4pe 3 = [(1, [((0, [2, 1]), 1)]), (2, [((0, [2, 1]), 2)]),
      (0, [((0, [2, 1]), 0), ((0, [0, 3]), 1), ((0, [3, 0]), 2)])] :=
  ⟨by decide, by decide, by decide, by decide, by decide, by decide⟩

/-- C4: in both test scenarios every dual-layout node shared by k subdomains holds
exactly k - 1 records, one per distinct (remote rank, remote ghost cell) pair; in
the 4-rank scenario the corner node has 3 records and each edge-shared node 1. -/
theorem C4_crosspoint_fanout :
    (∀ sc ∈ [scenario2pe, scenario4pe], ∀ r < 4, ∀ kv ∈ dualOf sc r,
      kv.2.length + 1 = (sharingRanks sc (globalOf (sc.getD r default) kv.1)).length ∧
      (kv.2.map (fun rec => (rec.2, rec.1.1))).Nodup) ∧
    (∀ r < 4, ∀ kv ∈ dualOf scenario4pe r,
      kv.2.length = if kv.1 = [3, 2, 1, 0].getD r 0 then 3 else 1) ∧
    (∀ kv ∈ dualOf scenario2pe 0, kv.2.length = 1) ∧
    (∀ kv ∈ dualOf scenario2pe 1, kv.2.length = 1) := by
  decide

end rtt_mesh

namespace rtt_dsxx

/-- Looking up the key just consed on finds its value. -/
theorem lookup_cons_self {β : Type} (k : Nat) (v : β) (t : List (Nat × β)) :
    List.lookup k ((k, v) :: t) = some v := by
  simp [List.lookup]

/-- Looking up a different key skips the head pair. -/
theorem lookup_cons_ne {β : Type} {a k : Nat} (v : β) (t : List (Nat × β))
    (h : (a == k) = false) :
    List.lookup a ((k, v) :: t) = List.lookup a t := by
  simp [List.lookup, h]

/-- Overwriting the cell at a key changes exactly that key's looked-up value. -/
theorem lookup_setRefs (l : List (Nat × Int)) (a : Nat) (v : Int) :
    List.lookup a (l.map fun kv => if kv.1 = a then (kv.1, v) else kv)
      = (List.lookup a l).map fun _ => v := by
  induction l with
  | nil => rfl
  | cons kv t ih =>
    obtain ⟨k, w⟩ := kv
    by_cases hk : k = a
    · subst hk
      simp [lookup_cons_self]
    · have hb : (a == k) = false := beq_eq_false_iff_ne.mpr (Ne.symm hk)
      simp [hk, lookup_cons_ne _ _ hb, ih]

/-- Deallocating a key removes it from lookup. -/
theorem lookup_eraseKey {β : Type} (l : List (Nat × β)) (a : Nat) :
    List.lookup a (l.filter fun kv => kv.1 != a) = none := by
  induction l with
  | nil => rfl
  | cons kv t ih =>
    obtain ⟨k, w⟩ := kv
    by_cases hk : k = a
    · subst hk
      simp [List.filter, ih]
    · have hf : (k != a) = true := by simp [hk]
      have hb : (a == k) = false := beq_eq_false_iff_ne.mpr (Ne.symm hk)
      simp [List.filter, hf, List.lookup, hb, ih]

/-- Deleting a pointee never touches the reference cells. -/
theorem deleteObj_refcells (h : Heap) (po : Option Nat) :
    (h.deleteObj po).refcells = h.refcells := by
  cases po <;> rfl

/-- C9: a default-constructed SP holds no pointer and has use_count 0; copying a
non-empty SP yields the same raw pointer and counter and increments the shared
count by exactly one; destruction decrements the count and deallocates the pointee
and the counter exactly when the count reaches zero. -/
theorem C9_sp_refcount_invariants :
    (∀ h : Heap, SP.mk0.p = none ∧ use_count h SP.mk0 = 0) ∧
    (∀ (h : Heap) (sp : SP) (q a : Nat) (c : Int),
      sp.p = some q → sp.r = some a → h.refsAt a = some c →
      (SP.copy h sp).2 = sp ∧ (SP.copy h sp).2.p = some q ∧
      (SP.copy h sp).1.refsAt a = some (c + 1) ∧
      use_count (SP.copy h sp).1 (SP.copy h sp).2 = use_count h sp + 1) ∧
    (∀ (h : Heap) (sp : SP) (a : Nat) (c : Int),
      sp.r = some a → h.refsAt a = some c →
      (c = 1 → (SP.free h sp).refsAt a = none ∧
        (∀ q, sp.p = some q → List.lookup q (SP.free h sp).objects = none)) ∧
      (c ≠ 1 → (SP.free h sp).refsAt a = some (c - 1) ∧
        (SP.free h sp).objects = h.objects)) := by
  refine ⟨fun h => ⟨rfl, rfl⟩, ?_, ?_⟩
  · intro h sp q a c hq ha hc
    obtain ⟨p, r⟩ := sp
    have ha2 : r = some a := ha
    subst ha2
    have hq2 : p = some q := hq
    subst hq2
    refine ⟨rfl, rfl, ?_, ?_⟩
    · show (h.setRefs a ((h.refsAt a).getD 0 + 1)).refsAt a = some (c + 1)
      have hl : List.lookup a h.refcells = some c := hc
      simp [Heap.refsAt, Heap.setRefs, lookup_setRefs, hl, hc]
    · show ((h.setRefs a ((h.refsAt a).getD 0 + 1)).refsAt a).getD 0
        = (h.refsAt a).getD 0 + 1
      have hl : List.lookup a h.refcells = some c := hc
      simp [Heap.refsAt, Heap.setRefs, lookup_setRefs, hl, hc]
  · intro h sp a c ha hc
    obtain ⟨p, r⟩ := sp
    have ha2 : r = some a := ha
    subst ha2
    constructor
    · intro hc1
      subst hc1
      have hv : ((h.refsAt a).getD 0 - 1 : Int) = 0 := by rw [hc]; rfl
      have hfree : SP.free h ⟨p, some a⟩ = (h.eraseRef a).deleteObj p := by
        show (if (h.refsAt a).getD 0 - 1 = 0 then (h.eraseRef a).deleteObj p
          else h.setRefs a ((h.refsAt a).getD 0 - 1)) = _
        rw [if_pos hv]
      rw [hfree]
      constructor
      · show List.lookup a ((h.eraseRef a).deleteObj p).refcells = none
        rw [deleteObj_refcells]
        exact lookup_eraseKey h.refcells a
      · intro q hpq
        have hpq2 : p = some q := hpq
        subst hpq2
        show List.lookup q ((h.eraseRef a).objects.filter fun ov => ov.1 != q) = none
        exact lookup_eraseKey _ q
    · intro hcne
      have hv : ¬ ((h.refsAt a).getD 0 - 1 : Int) = 0 := by
        rw [hc]
        show ¬ (c - 1 = 0)
        omega
      have hfree : SP.free h ⟨p, some a⟩ = h.setRefs a ((h.refsAt a).getD 0 - 1) := by
        show (if (h.refsAt a).getD 0 - 1 = 0 then (h.eraseRef a).deleteObj p
          else h.setRefs a ((h.refsAt a).getD 0 - 1)) = _
        rw [if_neg hv]
      rw [hfree]
      constructor
      · have hl : List.lookup a h.refcells = some c := hc
        simp [Heap.refsAt, Heap.setRefs, lookup_setRefs, hl, hc]
      · rfl

/-- Witness for C9 on a concrete heap: a counter cell at address 5 and a pointee at
address 9. -/
theorem C9_sp_refcount_invariants_witness :
    (SP.mk0.p = none ∧ use_count ⟨[(5, 2)], [(9, 0)]⟩ SP.mk0 = 0) ∧
    ((SP.copy ⟨[(5, 2)], [(9, 0)]⟩ ⟨some 9, some 5⟩).2 = ⟨some 9, some 5⟩ ∧
      (SP.copy ⟨[(5, 2)], [(9, 0)]⟩ ⟨some 9, some 5⟩).2.p = some 9 ∧
      (SP.copy ⟨[(5, 2)], [(9, 0)]⟩ ⟨some 9, some 5⟩).1.refsAt 5 = some (2 + 1) ∧
      use_count (SP.copy ⟨[(5, 2)], [(9, 0)]⟩ ⟨some 9, some 5⟩).1
          (SP.copy ⟨[(5, 2)], [(9, 0)]⟩ ⟨some 9, some 5⟩).2
        = use_count ⟨[(5, 2)], [(9, 0)]⟩ (⟨some 9, some 5⟩ : SP) + 1) ∧
    ((SP.free ⟨[(5, 1)], [(9, 0)]⟩ ⟨some 9, some 5⟩).refsAt 5 = none ∧
      List.lookup 9 (SP.free ⟨[(5, 1)], [(9, 0)]⟩ ⟨some 9, some 5⟩).objects = none) ∧
    ((SP.free ⟨[(5, 2)], [(9, 0)]⟩ ⟨some 9, some 5⟩).refsAt 5 = some (2 - 1) ∧
      (SP.free ⟨[(5, 2)], [(9, 0)]⟩ ⟨some 9, some 5⟩).objects = [(9, 0)]) := by
  refine ⟨C9_sp_refcount_invariants.1 ⟨[(5, 2)], [(9, 0)]⟩, ?_, ?_, ?_⟩
  · exact C9_sp_refcount_invariants.2.1 ⟨[(5, 2)], [(9, 0)]⟩ ⟨some 9, some 5⟩ 9 5 2
      rfl rfl (by decide)
  · obtain ⟨h1, h2⟩ := (C9_sp_refcount_invariants.2.2 ⟨[(5, 1)], [(9, 0)]⟩
      ⟨some 9, some 5⟩ 5 1 rfl (by decide)).1 rfl
    exact ⟨h1, h2 9 rfl⟩
  · exact (C9_sp_refcount_invariants.2.2 ⟨[(5, 2)], [(9, 0)]⟩
      ⟨some 9, some 5⟩ 5 2 rfl (by decide)).2 (by decide)

/-- C10: dynamic_pointer_cast returns an empty SP and leaves the source's count
unchanged when the pointee is not of the target type, and otherwise returns an SP
sharing the source's reference counter with the count incremented by one. -/
theorem C10_dynamic_pointer_cast_behavior (isA : Nat → Nat → Bool) (target : Nat)
    (h : Heap) (sp : SP) :
    (dynCast isA h target sp.p = none →
      dynamic_pointer_cast isA target h sp = (h, SP.mk0) ∧
      (dynamic_pointer_cast isA target h sp).2.p = none ∧
      use_count (dynamic_pointer_cast isA target h sp).1
          (dynamic_pointer_cast isA target h sp).2 = 0 ∧
      use_count (dynamic_pointer_cast isA target h sp).1 sp = use_count h sp) ∧
    (∀ q a c, dynCast isA h target sp.p = some q → sp.r = some a →
      h.refsAt a = some c →
      (dynamic_pointer_cast isA target h sp).2 = ⟨some q, some a⟩ ∧
      (dynamic_pointer_cast isA target h sp).1.refsAt a = some (c + 1) ∧
      use_count (dynamic_pointer_cast isA target h sp).1
          (dynamic_pointer_cast isA target h sp).2 = use_count h sp + 1) := by
  constructor
  · intro hnone
    unfold dynamic_pointer_cast
    rw [hnone]
    exact ⟨rfl, rfl, rfl, rfl⟩
  · intro q a c hsome ha hc
    unfold dynamic_pointer_cast
    rw [hsome, ha]
    have hl : List.lookup a h.refcells = some c := hc
    refine ⟨rfl, ?_, ?_⟩
    · show (h.setRefs a ((h.refsAt a).getD 0 + 1)).refsAt a = some (c + 1)
      simp [Heap.refsAt, Heap.setRefs, lookup_setRefs, hl, hc]
    · show ((h.setRefs a ((h.refsAt a).getD 0 + 1)).refsAt a).getD 0
        = use_count h sp + 1
      simp [Heap.refsAt, Heap.setRefs, lookup_setRefs, hl, hc, use_count, ha]

/-- Witness for C10 on a concrete heap: the pointee at address 9 has type tag 7;
casting to type 8 fails and is the identity on the heap, casting to type 7 shares
the counter at address 5 and increments it. -/
theorem C10_dynamic_pointer_cast_behavior_witness :
    (dynamic_pointer_cast (fun t u => t == u) 8 ⟨[(5, 1)], [(9, 7)]⟩ ⟨some 9, some 5⟩
        = (⟨[(5, 1)], [(9, 7)]⟩, SP.mk0)) ∧
    ((dynamic_pointer_cast (fun t u => t == u) 7 ⟨[(5, 1)], [(9, 7)]⟩ ⟨some 9, some 5⟩).2
        = ⟨some 9, some 5⟩ ∧
      (dynamic_pointer_cast (fun t u => t == u) 7 ⟨[(5, 1)], [(9, 7)]⟩
          ⟨some 9, some 5⟩).1.refsAt 5 = some (1 + 1)) :=
  ⟨((C10_dynamic_pointer_cast_behavior (fun t u => t == u) 8 ⟨[(5, 1)], [(9, 7)]⟩
      ⟨some 9, some 5⟩).1 (by decide)).1,
   ((C10_dynamic_pointer_cast_behavior (fun t u => t == u) 7 ⟨[(5, 1)], [(9, 7)]⟩
      ⟨some 9, some 5⟩).2 9 5 1 (by decide) rfl (by decide)).1,
   ((C10_dynamic_pointer_cast_behavior (fun t u => t == u) 7 ⟨[(5, 1)], [(9, 7)]⟩
      ⟨some 9, some 5⟩).2 9 5 1 (by decide) rfl (by decide)).2.1⟩

end rtt_dsxx
